import Mathlib

/-!
Shallow embedding of the authentication core of the real-estate rent
backend: the login / refresh / password-reset flows (`app/api/auth.py`),
the token and credential helpers (`app/core/security.py`), the access
control dependencies (`app/core/dependencies.py`), the registration and
profile endpoints (`app/api/users.py`) and the password-strength
validator (`app/schemas/user.py`).

Collaborators the code treats as opaque (bcrypt verification, JWT
decoding, UUID parsing, database lookup) are passed in as function
parameters; everything else is translated directly from the source.
Timestamps are integers (seconds); the persisted user row is threaded
explicitly through each flow, the second component of a flow's result
being the row as committed (or `none` when the flow commits nothing).
-/

namespace RentBackend

/-- The `privacy_settings` JSONB dict: each key may be absent
(`dict.get(key, False)` defaults to false). -/
structure PrivacyDict where
  hide_email : Option Bool
  hide_phone : Option Bool
  deriving Repr, DecidableEq

/-- The `users` table row (`app/models/user.py`), restricted to the
fields the authentication core reads or writes. Ids abstract UUIDs. -/
structure UserRec where
  id : Nat
  email : String
  phone : Option String
  name : String
  password_hash : String
  roles : List String
  verified : Bool
  status : String
  privacy_settings : Option PrivacyDict
  failed_login_attempts : Nat
  locked_until : Option Int
  last_login_at : Option Int
  profile_photo : Option String
  bio : Option String
  created_at : Int
  deriving Repr, DecidableEq

/-- A decoded JWT payload, as the dict returned by `jwt.decode`:
every key may be absent. -/
structure JwtPayload where
  sub : Option String
  email : Option String
  type : Option String
  deriving Repr, DecidableEq

/-- Claims embedded in a freshly issued token (`create_access_token`,
`create_refresh_token` in `app/core/security.py`). -/
structure TokenPayload where
  sub : Option String
  email : Option String
  roles : List String
  exp : Int
  type : String
  deriving Repr, DecidableEq

/-- `settings.access_token_expire_minutes` default (`app/config.py`). -/
def access_token_expire_minutes : Int := 30

/-- `settings.refresh_token_expire_days` default (`app/config.py`). -/
def refresh_token_expire_days : Int := 7

/-- `create_access_token` with the default expiry. -/
def create_access_token (now : Int) (userId : Nat) (email : String)
    (roles : List String) : TokenPayload :=
  { sub := some (toString userId), email := some email, roles := roles,
    exp := now + access_token_expire_minutes * 60, type := "access" }

/-- `create_refresh_token` with the default expiry. -/
def create_refresh_token (now : Int) (userId : Nat) : TokenPayload :=
  { sub := some (toString userId), email := none, roles := [],
    exp := now + refresh_token_expire_days * 86400, type := "refresh" }

/-- `user.locked_until and user.locked_until > datetime.now(...)`
(auth.py line 52): a `datetime` is always truthy, so this is
"set and strictly in the future". -/
def lockActive (lockedUntil : Option Int) (now : Int) : Bool :=
  match lockedUntil with
  | none => false
  | some t => now < t

/-- Outcome of the `/login` endpoint. `incorrectCredentials` is the
HTTP 401 "Incorrect email or password"; `lockedTryLater` the HTTP 403
raised by the pre-check on `locked_until`; `lockedFresh` the HTTP 403
raised when a failure pushes the counter to the threshold;
`accountNotActive` the HTTP 403 "Account is {status}". -/
inductive LoginResult where
  | incorrectCredentials
  | lockedTryLater
  | lockedFresh
  | accountNotActive (st : String)
  | success (access refresh : TokenPayload)
  deriving Repr, DecidableEq

/-- Both 403 lock signals are the claim-level `AccountLocked`. -/
def LoginResult.isAccountLocked : LoginResult → Bool
  | .lockedTryLater => true
  | .lockedFresh => true
  | _ => false

/-- The `login` handler (auth.py lines 31-99). `lookup` is the row
found by email (`none` when absent), `verify` is
`verify_password(plain, hash)`. The second component is the row as
committed by the handler. -/
def login (verify : String → String → Bool) (now : Int)
    (lookup : Option UserRec) (password : String) :
    LoginResult × Option UserRec :=
  match lookup with
  | none => (.incorrectCredentials, none)
  | some user =>
    if lockActive user.locked_until now then
      (.lockedTryLater, some user)
    else if !(verify password user.password_hash) then
      let u1 := { user with failed_login_attempts := user.failed_login_attempts + 1 }
      if u1.failed_login_attempts ≥ 5 then
        (.lockedFresh, some { u1 with locked_until := some (now + 15 * 60) })
      else
        (.incorrectCredentials, some u1)
    else if user.status ≠ "active" then
      (.accountNotActive user.status, some user)
    else
      let u2 := { user with
        failed_login_attempts := 0
        locked_until := none
        last_login_at := some now }
      (.success (create_access_token now user.id user.email user.roles)
        (create_refresh_token now user.id), some u2)

/-- Outcome of the `/refresh` endpoint. `invalidRefreshToken` is the
HTTP 401 "Invalid refresh token"; `userNotFoundOrInactive` the HTTP 401
"User not found or inactive"; `uncaughtValueError` models the Python
`ValueError` that `UUID(user_id)` raises on an unparsable subject and
that the handler does not catch (it escapes as an HTTP 500, not an
HTTPException). -/
inductive RefreshResult where
  | invalidRefreshToken
  | userNotFoundOrInactive
  | uncaughtValueError
  | ok (access refresh : TokenPayload)
  deriving Repr, DecidableEq

/-- The `refresh_access_token` handler (auth.py lines 102-145).
`decode` is `decode_token` (None on any JWTError), `parseUUID` the
`uuid.UUID` constructor (`none` models the raised ValueError),
`lookupById` the select-by-id. `if not user_id` is a Python truthiness
check, so an empty-string subject is rejected like a missing one. -/
def refresh_access_token (decode : String → Option JwtPayload)
    (parseUUID : String → Option Nat) (lookupById : Nat → Option UserRec)
    (now : Int) (token : String) : RefreshResult :=
  match decode token with
  | none => .invalidRefreshToken
  | some payload =>
    if payload.type ≠ some "refresh" then .invalidRefreshToken
    else
      match payload.sub with
      | none => .invalidRefreshToken
      | some sid =>
        if sid = "" then .invalidRefreshToken
        else
          match parseUUID sid with
          | none => .uncaughtValueError
          | some uid =>
            match lookupById uid with
            | none => .userNotFoundOrInactive
            | some user =>
              if user.status ≠ "active" then .userNotFoundOrInactive
              else .ok (create_access_token now user.id user.email user.roles)
                (create_refresh_token now user.id)

/-- `re.search(r"[A-Z]", v)` membership test for one character. -/
def isUppercaseChar (c : Char) : Bool := 'A' ≤ c && c ≤ 'Z'

/-- `re.search(r"[a-z]", v)` membership test for one character. -/
def isLowercaseChar (c : Char) : Bool := 'a' ≤ c && c ≤ 'z'

/-- The Unicode 14.0 decimal-digit ranges (general category Nd), as
closed code-point intervals. -/
def unicodeDecimalDigitRanges : List (Nat × Nat) :=
  [(0x30, 0x39), (0x660, 0x669), (0x6F0, 0x6F9), (0x7C0, 0x7C9),
   (0x966, 0x96F), (0x9E6, 0x9EF), (0xA66, 0xA6F), (0xAE6, 0xAEF),
   (0xB66, 0xB6F), (0xBE6, 0xBEF), (0xC66, 0xC6F), (0xCE6, 0xCEF),
   (0xD66, 0xD6F), (0xDE6, 0xDEF), (0xE50, 0xE59), (0xED0, 0xED9),
   (0xF20, 0xF29), (0x1040, 0x1049), (0x1090, 0x1099), (0x17E0, 0x17E9),
   (0x1810, 0x1819), (0x1946, 0x194F), (0x19D0, 0x19D9),
   (0x1A80, 0x1A89), (0x1A90, 0x1A99), (0x1B50, 0x1B59),
   (0x1BB0, 0x1BB9), (0x1C40, 0x1C49), (0x1C50, 0x1C59),
   (0xA620, 0xA629), (0xA8D0, 0xA8D9), (0xA900, 0xA909),
   (0xA9D0, 0xA9D9), (0xA9F0, 0xA9F9), (0xAA50, 0xAA59),
   (0xABF0, 0xABF9), (0xFF10, 0xFF19), (0x104A0, 0x104A9),
   (0x10D30, 0x10D39), (0x11066, 0x1106F), (0x110F0, 0x110F9),
   (0x11136, 0x1113F), (0x111D0, 0x111D9), (0x112F0, 0x112F9),
   (0x11450, 0x11459), (0x114D0, 0x114D9), (0x11650, 0x11659),
   (0x116C0, 0x116C9), (0x11730, 0x11739), (0x118E0, 0x118E9),
   (0x11950, 0x11959), (0x11C50, 0x11C59), (0x11D50, 0x11D59),
   (0x11DA0, 0x11DA9), (0x16A60, 0x16A69), (0x16AC0, 0x16AC9),
   (0x16B50, 0x16B59), (0x1D7CE, 0x1D7FF), (0x1E140, 0x1E149),
   (0x1E2F0, 0x1E2F9), (0x1E950, 0x1E959), (0x1FBF0, 0x1FBF9)]

/-- `re.search(r"\d", v)` membership test for one character: Python's
`\d` on `str` matches any Unicode decimal digit (category Nd), not
only ASCII `0-9`. -/
def isDigitChar (c : Char) : Bool :=
  unicodeDecimalDigitRanges.any (fun r => r.1 ≤ c.toNat && c.toNat ≤ r.2)

/-- The special-character class of `validate_password_strength`:
exclamation, at, hash, dollar, percent, caret, ampersand, star, both
parentheses, comma, dot, question mark, double quote, colon, both
curly braces, pipe, less-than, greater-than. -/
def specialChars : List Char :=
  ['!', '@', '#', '$', '%', Char.ofNat 94, '&', '*', '(', ')', ',', '.',
   '?', Char.ofNat 34, ':', Char.ofNat 123, Char.ofNat 125, '|', '<', '>']

/-- `UserCreate.validate_password_strength` (`app/schemas/user.py`
lines 24-38): the five checks in source order, first failure wins. -/
def validate_password_strength (v : String) : Except String String :=
  if v.length < 8 then
    .error "Password must be at least 8 characters long"
  else if !(v.data.any isUppercaseChar) then
    .error "Password must contain at least one uppercase letter"
  else if !(v.data.any isLowercaseChar) then
    .error "Password must contain at least one lowercase letter"
  else if !(v.data.any isDigitChar) then
    .error "Password must contain at least one digit"
  else if !(v.data.any (fun c => specialChars.contains c)) then
    .error "Password must contain at least one special character"
  else .ok v

/-- The body of a `POST /register` request (schema `UserCreate`). -/
structure RegisterInput where
  email : String
  phone : Option String
  name : String
  password : String
  deriving Repr, DecidableEq

/-- Outcome of registration. `validationError` is the 422 raised by
the pydantic validator before the handler runs; `emailExists` /
`phoneExists` the HTTP 400 duplicates; `created` the 201. -/
inductive RegisterResult where
  | validationError (msg : String)
  | emailExists
  | phoneExists
  | created
  deriving Repr, DecidableEq

/-- The `register_user` handler (`app/api/users.py` lines 25-73),
preceded by the pydantic password validator that FastAPI runs on the
request body before the handler. `db` is the user table, `freshId` the
id the store assigns. The second component is the table afterwards. -/
def register_user (db : List UserRec) (freshId : Nat)
    (hash : String → String) (inp : RegisterInput) :
    RegisterResult × List UserRec :=
  match validate_password_strength inp.password with
  | .error m => (.validationError m, db)
  | .ok _ =>
    if db.any (fun u => u.email = inp.email) then (.emailExists, db)
    else
      let phoneDup :=
        match inp.phone with
        | none => false
        | some ph => ph ≠ "" && db.any (fun u => u.phone = some ph)
      if phoneDup then (.phoneExists, db)
      else
        (.created, db ++ [{
          id := freshId
          email := inp.email
          phone := inp.phone
          name := inp.name
          password_hash := hash inp.password
          roles := ["seeker"]
          verified := false
          status := "active"
          privacy_settings := none
          failed_login_attempts := 0
          locked_until := none
          last_login_at := none
          profile_photo := none
          bio := none
          created_at := 0 }])

/-- `privacy.get("hide_email", False)` over
`user.privacy_settings or {}`. -/
def hideEmailOf (ps : Option PrivacyDict) : Bool :=
  match ps with
  | none => false
  | some d => d.hide_email.getD false

/-- `privacy.get("hide_phone", False)` over
`user.privacy_settings or {}`. -/
def hidePhoneOf (ps : Option PrivacyDict) : Bool :=
  match ps with
  | none => false
  | some d => d.hide_phone.getD false

/-- The `UserProfileResponse` schema: `email` and `phone` default to
`None`, so a key the handler leaves out of `response_data` surfaces as
`none`. -/
structure UserProfileResponse where
  id : Nat
  name : String
  profile_photo : Option String
  bio : Option String
  roles : List String
  verified : Bool
  email : Option String
  phone : Option String
  created_at : Int
  deriving Repr, DecidableEq

/-- Outcome of `GET /{user_id}/profile`. -/
inductive ProfileResult where
  | notFound
  | ok (r : UserProfileResponse)
  deriving Repr, DecidableEq

/-- The `get_user_profile` handler (`app/api/users.py` lines 76-118).
`current` is the principal resolved by the optional-auth dependency
(`none` when unauthenticated). -/
def get_user_profile (lookupById : Nat → Option UserRec)
    (current : Option UserRec) (userId : Nat) : ProfileResult :=
  match lookupById userId with
  | none => .notFound
  | some user =>
    let isOwnProfile :=
      match current with
      | none => false
      | some cu => cu.id = user.id
    .ok { id := user.id
          name := user.name
          profile_photo := user.profile_photo
          bio := user.bio
          roles := user.roles
          verified := user.verified
          email := if isOwnProfile || !(hideEmailOf user.privacy_settings)
                   then some user.email else none
          phone := if isOwnProfile || !(hidePhoneOf user.privacy_settings)
                   then user.phone else none
          created_at := user.created_at }

/-- Failure of the required-auth dependency: `couldNotValidate` is the
HTTP 401 "Could not validate credentials"; `accountStatusForbidden`
the HTTP 403 "User account is {status}". -/
inductive AuthFail where
  | couldNotValidate
  | accountStatusForbidden (st : String)
  deriving Repr, DecidableEq

/-- `get_current_user` (`app/core/dependencies.py` lines 18-62), given
the already-extracted bearer token. The `uuid.UUID` ValueError is
caught here (`parseUUID _ = none` maps to the 401). -/
def get_current_user (decode : String → Option JwtPayload)
    (parseUUID : String → Option Nat) (lookupById : Nat → Option UserRec)
    (token : String) : Except AuthFail UserRec :=
  match decode token with
  | none => .error .couldNotValidate
  | some payload =>
    if payload.type ≠ some "access" then .error .couldNotValidate
    else
      match payload.sub with
      | none => .error .couldNotValidate
      | some sid =>
        match parseUUID sid with
        | none => .error .couldNotValidate
        | some uid =>
          match lookupById uid with
          | none => .error .couldNotValidate
          | some user =>
            if user.status ≠ "active" then
              .error (.accountStatusForbidden user.status)
            else .ok user

/-- `get_optional_current_user` (`app/core/dependencies.py` lines
87-118): every failure, the inactive user included, yields `none`. -/
def get_optional_current_user (decode : String → Option JwtPayload)
    (parseUUID : String → Option Nat) (lookupById : Nat → Option UserRec)
    (credentials : Option String) : Option UserRec :=
  match credentials with
  | none => none
  | some token =>
    match decode token with
    | none => none
    | some payload =>
      if payload.type ≠ some "access" then none
      else
        match payload.sub with
        | none => none
        | some sid =>
          match parseUUID sid with
          | none => none
          | some uid =>
            match lookupById uid with
            | none => none
            | some user =>
              if user.status = "active" then some user else none

/-- The chain of conditions under which a bearer token resolves to the
user record `u` (decode, type `access`, parseable subject, lookup),
before the status check. -/
def resolvesToUser (decode : String → Option JwtPayload)
    (parseUUID : String → Option Nat) (lookupById : Nat → Option UserRec)
    (token : String) (u : UserRec) : Prop :=
  ∃ payload sid uid, decode token = some payload ∧
    payload.type = some "access" ∧ payload.sub = some sid ∧
    parseUUID sid = some uid ∧ lookupById uid = some u

/-- `resolvesToUser` plus the status check: the full acceptance
condition of the access-control resolve step. -/
def resolvesToActiveUser (decode : String → Option JwtPayload)
    (parseUUID : String → Option Nat) (lookupById : Nat → Option UserRec)
    (token : String) (u : UserRec) : Prop :=
  resolvesToUser decode parseUUID lookupById token u ∧ u.status = "active"

/-! ### Helper lemmas about `login` -/

/-- A pre-existing active lock short-circuits the flow. -/
theorem login_locked_precheck (verify : String → String → Bool)
    (now : Int) (u : UserRec) (pw : String)
    (hl : lockActive u.locked_until now = true) :
    login verify now (some u) pw = (.lockedTryLater, some u) := by
  simp [login, hl]

/-- A wrong password below the lock threshold increments the counter
and reports the generic failure. -/
theorem login_wrong_below_threshold (verify : String → String → Bool)
    (now : Int) (u : UserRec) (pw : String)
    (hl : lockActive u.locked_until now = false)
    (hw : verify pw u.password_hash = false)
    (h5 : u.failed_login_attempts + 1 < 5) :
    login verify now (some u) pw =
      (.incorrectCredentials,
        some { u with failed_login_attempts := u.failed_login_attempts + 1 }) := by
  simp [login, hl, hw, Nat.not_le.mpr h5]

/-- A wrong password that pushes the counter to the threshold sets a
fresh 15-minute lock and reports the lock. -/
theorem login_wrong_at_threshold (verify : String → String → Bool)
    (now : Int) (u : UserRec) (pw : String)
    (hl : lockActive u.locked_until now = false)
    (hw : verify pw u.password_hash = false)
    (h5 : 5 ≤ u.failed_login_attempts + 1) :
    login verify now (some u) pw =
      (.lockedFresh,
        some { u with
          failed_login_attempts := u.failed_login_attempts + 1
          locked_until := some (now + 15 * 60) }) := by
  simp [login, hl, hw, h5]

/-- A correct password on a non-locked, non-active account reports the
status and commits the row unchanged. -/
theorem login_right_not_active (verify : String → String → Bool)
    (now : Int) (u : UserRec) (pw : String)
    (hl : lockActive u.locked_until now = false)
    (hv : verify pw u.password_hash = true)
    (hs : u.status ≠ "active") :
    login verify now (some u) pw = (.accountNotActive u.status, some u) := by
  simp [login, hl, hv, hs]

/-- A correct password on a non-locked active account succeeds. -/
theorem login_full_success (verify : String → String → Bool)
    (now : Int) (u : UserRec) (pw : String)
    (hl : lockActive u.locked_until now = false)
    (hv : verify pw u.password_hash = true)
    (hs : u.status = "active") :
    login verify now (some u) pw =
      (.success (create_access_token now u.id u.email u.roles)
        (create_refresh_token now u.id),
       some { u with
         failed_login_attempts := 0
         locked_until := none
         last_login_at := some now }) := by
  simp [login, hl, hv, hs]

/-! ### Sample inputs used by witnesses and counterexamples -/

/-- A fresh active user: zero failed attempts, no lock. -/
def sampleUser : UserRec :=
  { id := 1, email := "alice@example.com", phone := none, name := "Alice",
    password_hash := "bcrypt-hash", roles := ["seeker"], verified := false,
    status := "active", privacy_settings := none, failed_login_attempts := 0,
    locked_until := none, last_login_at := none, profile_photo := none,
    bio := none, created_at := 0 }

/-- A verifier that rejects every password (models a wrong password). -/
def alwaysWrong : String → String → Bool := fun _ _ => false

/-- A verifier that accepts every password (models the right one). -/
def alwaysRight : String → String → Bool := fun _ _ => true

/-! ### C1 -/

/-- C1: starting from a zero counter and no lock, five consecutive
wrong-password logins give the generic failure on attempts 1-4 with
the persisted counter equal to the attempts made, and the 5th attempt
sets `locked_until = now + 15min`, persists counter 5, and returns the
lock signal, not the generic one. -/
theorem login_five_consecutive_wrong_attempts_lock
    (verify : String → String → Bool) (pw : String) (u : UserRec)
    (t1 t2 t3 t4 t5 : Int)
    (h0 : u.failed_login_attempts = 0) (hl : u.locked_until = none)
    (hw : verify pw u.password_hash = false) :
    ∃ u1 u2 u3 u4 u5 : UserRec,
      login verify t1 (some u) pw = (.incorrectCredentials, some u1) ∧
      u1.failed_login_attempts = 1 ∧
      login verify t2 (some u1) pw = (.incorrectCredentials, some u2) ∧
      u2.failed_login_attempts = 2 ∧
      login verify t3 (some u2) pw = (.incorrectCredentials, some u3) ∧
      u3.failed_login_attempts = 3 ∧
      login verify t4 (some u3) pw = (.incorrectCredentials, some u4) ∧
      u4.failed_login_attempts = 4 ∧
      login verify t5 (some u4) pw = (.lockedFresh, some u5) ∧
      u5.failed_login_attempts = 5 ∧
      u5.locked_until = some (t5 + 15 * 60) ∧
      (LoginResult.lockedFresh).isAccountLocked = true ∧
      (LoginResult.lockedFresh) ≠ .incorrectCredentials := by
  refine ⟨{ u with failed_login_attempts := 1 },
    { u with failed_login_attempts := 2 },
    { u with failed_login_attempts := 3 },
    { u with failed_login_attempts := 4 },
    { u with
      failed_login_attempts := 5
      locked_until := some (t5 + 15 * 60) },
    ?_, rfl, ?_, rfl, ?_, rfl, ?_, rfl, ?_, rfl, rfl, rfl, by decide⟩
  · rw [login_wrong_below_threshold verify t1 u pw (by simp [lockActive, hl])
      hw (by omega)]
    simp [h0]
  · rw [login_wrong_below_threshold verify t2 _ pw (by simp [lockActive, hl])
      (by simpa using hw) (by simp)]
  · rw [login_wrong_below_threshold verify t3 _ pw (by simp [lockActive, hl])
      (by simpa using hw) (by simp)]
  · rw [login_wrong_below_threshold verify t4 _ pw (by simp [lockActive, hl])
      (by simpa using hw) (by simp)]
  · rw [login_wrong_at_threshold verify t5 _ pw (by simp [lockActive, hl])
      (by simpa using hw) (by simp)]

/-- Witness for C1 at a concrete user, verifier and times. -/
theorem login_five_consecutive_wrong_attempts_lock_witness :
    (sampleUser.failed_login_attempts = 0 ∧ sampleUser.locked_until = none ∧
      alwaysWrong "pw" sampleUser.password_hash = false) ∧
    (∃ u1 u2 u3 u4 u5 : UserRec,
      login alwaysWrong 10 (some sampleUser) "pw" = (.incorrectCredentials, some u1) ∧
      u1.failed_login_attempts = 1 ∧
      login alwaysWrong 20 (some u1) "pw" = (.incorrectCredentials, some u2) ∧
      u2.failed_login_attempts = 2 ∧
      login alwaysWrong 30 (some u2) "pw" = (.incorrectCredentials, some u3) ∧
      u3.failed_login_attempts = 3 ∧
      login alwaysWrong 40 (some u3) "pw" = (.incorrectCredentials, some u4) ∧
      u4.failed_login_attempts = 4 ∧
      login alwaysWrong 50 (some u4) "pw" = (.lockedFresh, some u5) ∧
      u5.failed_login_attempts = 5 ∧
      u5.locked_until = some (50 + 15 * 60) ∧
      (LoginResult.lockedFresh).isAccountLocked = true ∧
      (LoginResult.lockedFresh) ≠ .incorrectCredentials) :=
  ⟨⟨rfl, rfl, rfl⟩,
    login_five_consecutive_wrong_attempts_lock alwaysWrong "pw" sampleUser
      10 20 30 40 50 rfl rfl rfl⟩

/-! ### C2 -/

/-- Sample: a user currently locked (lock expiry strictly in the
future at time 0). -/
def lockedUser : UserRec :=
  { sampleUser with locked_until := some 1000, failed_login_attempts := 3 }

/-- Sample: a user with four failed attempts and no lock. -/
def fourFailUser : UserRec := { sampleUser with failed_login_attempts := 4 }

/-- C2 counterexample: with four prior failures and no lock set, a
wrong password makes Login fail with the `AccountLocked` signal even
though `locked_until` was not set, refuting the "exactly when"
direction of the claim. -/
theorem login_locked_only_when_prelocked_counterexample :
    lockActive fourFailUser.locked_until 0 = false ∧
    fourFailUser.locked_until = none ∧
    (login alwaysWrong 0 (some fourFailUser) "pw").1.isAccountLocked = true := by
  decide

/-- C2 (amended): Login fails with `AccountLocked` exactly when either
`locked_until` is set and strictly in the future, or the password is
wrong and the incremented counter reaches the threshold 5; in the
pre-locked case the outcome is the same for every password verifier
(the password is never verified) and the row is committed unchanged. -/
theorem login_account_locked_characterization
    (verify : String → String → Bool) (now : Int) (u : UserRec) (pw : String) :
    ((login verify now (some u) pw).1.isAccountLocked = true ↔
      (lockActive u.locked_until now = true ∨
        (verify pw u.password_hash = false ∧ 5 ≤ u.failed_login_attempts + 1))) ∧
    (lockActive u.locked_until now = true →
      (∀ verify2 : String → String → Bool,
        login verify2 now (some u) pw = login verify now (some u) pw) ∧
      (login verify now (some u) pw).2 = some u) := by
  constructor
  · by_cases hl : lockActive u.locked_until now = true
    · rw [login_locked_precheck verify now u pw hl]
      simp [LoginResult.isAccountLocked, hl]
    · rw [Bool.not_eq_true] at hl
      by_cases hv : verify pw u.password_hash = true
      · by_cases hs : u.status = "active"
        · rw [login_full_success verify now u pw hl hv hs]
          simp [LoginResult.isAccountLocked, hl, hv]
        · rw [login_right_not_active verify now u pw hl hv hs]
          simp [LoginResult.isAccountLocked, hl, hv]
      · rw [Bool.not_eq_true] at hv
        by_cases h5 : 5 ≤ u.failed_login_attempts + 1
        · rw [login_wrong_at_threshold verify now u pw hl hv h5]
          simp [LoginResult.isAccountLocked, hl, hv, h5]
        · rw [login_wrong_below_threshold verify now u pw hl hv (by omega)]
          simp [LoginResult.isAccountLocked, hl, hv, h5]
  · intro hl
    exact ⟨fun verify2 => by
        rw [login_locked_precheck verify now u pw hl,
          login_locked_precheck verify2 now u pw hl],
      by rw [login_locked_precheck verify now u pw hl]⟩

/-- Witness for C2 (amended) at a concretely locked user: the
pre-locked consequences, obtained by applying the characterization. -/
theorem login_account_locked_characterization_witness :
    login alwaysWrong 0 (some lockedUser) "pw" =
      login alwaysRight 0 (some lockedUser) "pw" ∧
    (login alwaysRight 0 (some lockedUser) "pw").2 = some lockedUser :=
  ⟨((login_account_locked_characterization alwaysRight 0 lockedUser "pw").2
      (by decide)).1 alwaysWrong,
    ((login_account_locked_characterization alwaysRight 0 lockedUser "pw").2
      (by decide)).2⟩

/-! ### C3 -/

/-- C3: a successful login (existing user, not locked, password
verifies, status active) zeroes the counter, clears the lock, stamps
`last_login_at = now`, and returns one access and one refresh token. -/
theorem login_success_resets_lockout_and_returns_tokens
    (verify : String → String → Bool) (now : Int) (u : UserRec) (pw : String)
    (hl : lockActive u.locked_until now = false)
    (hv : verify pw u.password_hash = true)
    (hs : u.status = "active") :
    ∃ access refresh : TokenPayload,
      (login verify now (some u) pw).1 = .success access refresh ∧
      access.type = "access" ∧ refresh.type = "refresh" ∧
      (login verify now (some u) pw).2 = some { u with
        failed_login_attempts := 0
        locked_until := none
        last_login_at := some now } := by
  rw [login_full_success verify now u pw hl hv hs]
  exact ⟨_, _, rfl, rfl, rfl, rfl⟩

/-- Witness for C3 at the sample user. -/
theorem login_success_resets_lockout_witness :
    (lockActive sampleUser.locked_until 7 = false ∧
      alwaysRight "pw" sampleUser.password_hash = true ∧
      sampleUser.status = "active") ∧
    (∃ access refresh : TokenPayload,
      (login alwaysRight 7 (some sampleUser) "pw").1 = .success access refresh ∧
      access.type = "access" ∧ refresh.type = "refresh" ∧
      (login alwaysRight 7 (some sampleUser) "pw").2 = some { sampleUser with
        failed_login_attempts := 0
        locked_until := none
        last_login_at := some 7 }) :=
  ⟨⟨rfl, rfl, rfl⟩,
    login_success_resets_lockout_and_returns_tokens alwaysRight 7 sampleUser
      "pw" rfl rfl rfl⟩

/-! ### C5 -/

/-- Sample: a suspended user with four failed attempts and no lock. -/
def suspendedFourFailUser : UserRec :=
  { sampleUser with status := "suspended", failed_login_attempts := 4 }

/-- Sample: a suspended user with a clean lockout state. -/
def suspendedUser : UserRec := { sampleUser with status := "suspended" }

/-- C5 counterexample: a non-locked suspended user with four prior
failures gets the `AccountLocked` signal on a wrong password, not the
generic `InvalidCredentials` the claim promises for every non-locked
inactive user. -/
theorem login_inactive_wrong_password_counterexample :
    suspendedFourFailUser.status ≠ "active" ∧
    lockActive suspendedFourFailUser.locked_until 0 = false ∧
    (login alwaysWrong 0 (some suspendedFourFailUser) "pw").1 ≠
      .incorrectCredentials := by
  decide

/-- C5 (amended): the status check runs only after password
verification: on a non-locked account with status ≠ active, a wrong
password still increments the persisted counter and yields the generic
failure when the incremented counter stays below 5 (the lock signal
when it reaches 5), while a correct password yields `AccountNotActive`
naming the status and commits the row unchanged. -/
theorem login_status_checked_after_password
    (verify : String → String → Bool) (now : Int) (u : UserRec) (pw : String)
    (hl : lockActive u.locked_until now = false)
    (hs : u.status ≠ "active") :
    (verify pw u.password_hash = false →
      (∃ u', (login verify now (some u) pw).2 = some u' ∧
        u'.failed_login_attempts = u.failed_login_attempts + 1) ∧
      (if 5 ≤ u.failed_login_attempts + 1
        then (login verify now (some u) pw).1 = .lockedFresh
        else (login verify now (some u) pw).1 = .incorrectCredentials)) ∧
    (verify pw u.password_hash = true →
      login verify now (some u) pw = (.accountNotActive u.status, some u)) := by
  constructor
  · intro hw
    by_cases h5 : 5 ≤ u.failed_login_attempts + 1
    · rw [login_wrong_at_threshold verify now u pw hl hw h5]
      exact ⟨⟨_, rfl, rfl⟩, by simp [h5]⟩
    · rw [login_wrong_below_threshold verify now u pw hl hw (by omega)]
      exact ⟨⟨_, rfl, rfl⟩, by simp [h5]⟩
  · intro hv
    exact login_right_not_active verify now u pw hl hv hs

/-- Witness for C5 (amended) at a suspended user with a clean counter,
applying the theorem once with a failing and once with a succeeding
verifier. -/
theorem login_status_checked_after_password_witness :
    ((∃ u', (login alwaysWrong 0 (some suspendedUser) "pw").2 = some u' ∧
        u'.failed_login_attempts = suspendedUser.failed_login_attempts + 1) ∧
      (if 5 ≤ suspendedUser.failed_login_attempts + 1
        then (login alwaysWrong 0 (some suspendedUser) "pw").1 = .lockedFresh
        else (login alwaysWrong 0 (some suspendedUser) "pw").1 =
          .incorrectCredentials)) ∧
    login alwaysRight 0 (some suspendedUser) "pw" =
      (.accountNotActive suspendedUser.status, some suspendedUser) :=
  ⟨(login_status_checked_after_password alwaysWrong 0 suspendedUser "pw"
      rfl (by decide)).1 rfl,
    (login_status_checked_after_password alwaysRight 0 suspendedUser "pw"
      rfl (by decide)).2 rfl⟩

/-! ### C10 -/

/-- Sample: a user whose lock has expired with the counter still at 5. -/
def expiredLockUser : UserRec :=
  { sampleUser with failed_login_attempts := 5, locked_until := some (-10) }

/-- C10: after a lock expires naturally, the counter is not reset: a
user with counter ≥ 5 and an expired lock gets, on one further wrong
password, a fresh `locked_until = now + 15min` and the lock signal
rather than the generic failure, with the counter incremented (never
reset). -/
theorem login_expired_lock_relocks_immediately
    (verify : String → String → Bool) (now : Int) (u : UserRec) (pw : String)
    (t : Int)
    (hc : 5 ≤ u.failed_login_attempts)
    (hl : u.locked_until = some t) (hexp : t ≤ now)
    (hw : verify pw u.password_hash = false) :
    (login verify now (some u) pw).1 = .lockedFresh ∧
    (login verify now (some u) pw).1.isAccountLocked = true ∧
    (login verify now (some u) pw).1 ≠ .incorrectCredentials ∧
    ∃ u', (login verify now (some u) pw).2 = some u' ∧
      u'.locked_until = some (now + 15 * 60) ∧
      u'.failed_login_attempts = u.failed_login_attempts + 1 := by
  have hla : lockActive u.locked_until now = false := by
    simp [lockActive, hl]
    omega
  rw [login_wrong_at_threshold verify now u pw hla hw (by omega)]
  exact ⟨rfl, rfl, by simp, _, rfl, rfl, rfl⟩

/-- Witness for C10 at a concrete expired-lock user. -/
theorem login_expired_lock_relocks_immediately_witness :
    (5 ≤ expiredLockUser.failed_login_attempts ∧
      expiredLockUser.locked_until = some (-10) ∧ (-10 : Int) ≤ 0 ∧
      alwaysWrong "pw" expiredLockUser.password_hash = false) ∧
    ((login alwaysWrong 0 (some expiredLockUser) "pw").1 = .lockedFresh ∧
      (login alwaysWrong 0 (some expiredLockUser) "pw").1.isAccountLocked = true ∧
      (login alwaysWrong 0 (some expiredLockUser) "pw").1 ≠
        .incorrectCredentials ∧
      ∃ u', (login alwaysWrong 0 (some expiredLockUser) "pw").2 = some u' ∧
        u'.locked_until = some (0 + 15 * 60) ∧
        u'.failed_login_attempts = expiredLockUser.failed_login_attempts + 1) :=
  ⟨⟨by decide, rfl, by decide, rfl⟩,
    login_expired_lock_relocks_immediately alwaysWrong 0 expiredLockUser "pw"
      (-10) (by decide) rfl (by decide) rfl⟩

/-! ### C4 -/

/-- Sample decoder for refresh tokens: `tok-bad-sub` decodes to a
refresh-typed payload whose subject is not a parsable user id;
`tok-no-sub` to one with no subject; `tok-wrong-type` to an
access-typed payload; everything else fails to decode. -/
def refreshDecodeSample : String → Option JwtPayload := fun t =>
  if t = "tok-bad-sub" then
    some { sub := some "not-a-uuid", email := none, type := some "refresh" }
  else if t = "tok-no-sub" then
    some { sub := none, email := none, type := some "refresh" }
  else if t = "tok-wrong-type" then
    some { sub := some "1", email := none, type := some "access" }
  else none

/-- A UUID parser on which every string fails (models
`uuid.UUID(...)` raising ValueError on non-UUID shapes). -/
def parseUUIDNone : String → Option Nat := fun _ => none

/-- An empty user store. -/
def lookupNone : Nat → Option UserRec := fun _ => none

/-- C4, the code evaluated at the failing input: a token that decodes
with type `refresh` but a subject that is not parsable as a user id
makes the handler hit the uncaught `UUID(user_id)` ValueError (an HTTP
500), not the `InvalidToken` rejection; decode failure, a wrong type,
and a missing subject do give `InvalidToken` as claimed. -/
theorem refresh_unparsable_subject_uncaught_error :
    refresh_access_token refreshDecodeSample parseUUIDNone lookupNone 0
      "tok-bad-sub" = .uncaughtValueError ∧
    refresh_access_token refreshDecodeSample parseUUIDNone lookupNone 0
      "tok-bad-sub" ≠ .invalidRefreshToken ∧
    refresh_access_token refreshDecodeSample parseUUIDNone lookupNone 0
      "garbage" = .invalidRefreshToken ∧
    refresh_access_token refreshDecodeSample parseUUIDNone lookupNone 0
      "tok-wrong-type" = .invalidRefreshToken ∧
    refresh_access_token refreshDecodeSample parseUUIDNone lookupNone 0
      "tok-no-sub" = .invalidRefreshToken := by
  decide

/-! ### C6 -/

/-- A concrete stand-in for `hash_password`. -/
def hashDemo : String → String := fun p => String.append "hashed-" p

/-- C7: a registration password missing any of the five strength
requirements (length ≥ 8, an uppercase letter, a lowercase letter, a
digit, a special character) is rejected with a validation error with
the user table untouched, and a password meeting all five passes the
strength check. -/
theorem register_password_strength_enforced
    (db : List UserRec) (freshId : Nat) (hash : String → String)
    (inp : RegisterInput) :
    ((inp.password.length < 8 ∨
        inp.password.data.any isUppercaseChar = false ∨
        inp.password.data.any isLowercaseChar = false ∨
        inp.password.data.any isDigitChar = false ∨
        inp.password.data.any (fun c => specialChars.contains c) = false) →
      ∃ m, register_user db freshId hash inp = (.validationError m, db)) ∧
    ((8 ≤ inp.password.length ∧
        inp.password.data.any isUppercaseChar = true ∧
        inp.password.data.any isLowercaseChar = true ∧
        inp.password.data.any isDigitChar = true ∧
        inp.password.data.any (fun c => specialChars.contains c) = true) →
      validate_password_strength inp.password = .ok inp.password) := by
  constructor
  · intro h
    have hv : ∃ m, validate_password_strength inp.password = .error m := by
      unfold validate_password_strength
      rcases h with h | h | h | h | h <;> (repeat' split) <;>
        first
          | exact ⟨_, rfl⟩
          | simp_all
    obtain ⟨m, hm⟩ := hv
    exact ⟨m, by simp [register_user, hm]⟩
  · rintro ⟨h1, h2, h3, h4, h5⟩
    unfold validate_password_strength
    rw [h2, h3, h4, h5]
    simp [Nat.not_lt.mpr h1]

/-- Registration input with a fixed identity and a given password. -/
def regInput (pw : String) : RegisterInput :=
  { email := "bob@example.com", phone := none, name := "Bob", password := pw }

/-- Witness for C7: an all-lowercase password is rejected with the
table unchanged; the spec example password passes the check, as does
one whose only digit is the non-ASCII Unicode decimal digit U+0663. -/
theorem register_password_strength_witness :
    (∃ m, register_user [] 1 hashDemo (regInput "weakpass") =
      (.validationError m, [])) ∧
    validate_password_strength "Str0ng!Pass" = .ok "Str0ng!Pass" ∧
    validate_password_strength "Abcdefg٣!" = .ok "Abcdefg٣!" :=
  ⟨(register_password_strength_enforced [] 1 hashDemo (regInput "weakpass")).1
      (Or.inr (Or.inl (by decide))),
    (register_password_strength_enforced [] 1 hashDemo
      (regInput "Str0ng!Pass")).2 (by decide),
    (register_password_strength_enforced [] 1 hashDemo
      (regInput "Abcdefg٣!")).2 (by decide)⟩

/-! ### C8 -/

/-- C8: when a profile owner sets `hide_email`, a view by any other
principal, or by no principal, carries no email; a view by the owner
always carries both contact fields, whatever the privacy settings. -/
theorem profile_privacy_hide_email
    (lookupById : Nat → Option UserRec) (current : Option UserRec)
    (userId : Nat) (user : UserRec)
    (hu : lookupById userId = some user) :
    (hideEmailOf user.privacy_settings = true →
      (∀ viewer, current = some viewer → viewer.id ≠ user.id →
        ∃ r, get_user_profile lookupById current userId = .ok r ∧
          r.email = none) ∧
      (current = none →
        ∃ r, get_user_profile lookupById current userId = .ok r ∧
          r.email = none)) ∧
    (∀ viewer, current = some viewer → viewer.id = user.id →
      ∃ r, get_user_profile lookupById current userId = .ok r ∧
        r.email = some user.email ∧ r.phone = user.phone) := by
  constructor
  · intro hhide
    constructor
    · rintro viewer rfl hne
      simp only [get_user_profile, hu]
      refine ⟨_, rfl, ?_⟩
      simp [hhide, hne]
    · rintro rfl
      simp only [get_user_profile, hu]
      refine ⟨_, rfl, ?_⟩
      simp [hhide]
  · rintro viewer rfl hown
    simp only [get_user_profile, hu]
    refine ⟨_, rfl, ?_, ?_⟩
    · simp [hown]
    · simp [hown]

/-- Sample: a user who hides her email. -/
def hideEmailUser : UserRec :=
  { sampleUser with
    id := 2
    email := "carol@example.com"
    phone := some "+12345678901"
    privacy_settings := some { hide_email := some true, hide_phone := none } }

/-- A store holding the sample user (id 1) and the email-hiding user
(id 2). -/
def lookupTwoUsers : Nat → Option UserRec := fun i =>
  if i = 2 then some hideEmailUser
  else if i = 1 then some sampleUser
  else none

/-- Witness for C8: another principal viewing the email-hiding user
gets no email; the user viewing herself gets email and phone. -/
theorem profile_privacy_hide_email_witness :
    (∃ r, get_user_profile lookupTwoUsers (some sampleUser) 2 = .ok r ∧
      r.email = none) ∧
    (∃ r, get_user_profile lookupTwoUsers (some hideEmailUser) 2 = .ok r ∧
      r.email = some hideEmailUser.email ∧ r.phone = hideEmailUser.phone) :=
  ⟨((profile_privacy_hide_email lookupTwoUsers (some sampleUser) 2
        hideEmailUser rfl).1 rfl).1 sampleUser rfl (by decide),
    (profile_privacy_hide_email lookupTwoUsers (some hideEmailUser) 2
        hideEmailUser rfl).2 hideEmailUser rfl rfl⟩

/-! ### C9 -/

/-- Sample decoder for access tokens: `tok-suspended` decodes to an
access-typed payload whose subject resolves to the suspended user. -/
def accessDecodeSample : String → Option JwtPayload := fun t =>
  if t = "tok-suspended" then
    some { sub := some "1", email := none, type := some "access" }
  else none

/-- A UUID parser accepting only `"1"`. -/
def parseUUIDSample : String → Option Nat := fun s =>
  if s = "1" then some 1 else none

/-- A store holding only the suspended user, under id 1. -/
def lookupSuspendedStore : Nat → Option UserRec := fun i =>
  if i = 1 then some suspendedUser else none

/-- C9 counterexample: a well-formed access token resolving to an
existing user with status `suspended` is rejected on the required-auth
path with the status-naming 403, not with the `Unauthenticated` 401
(`couldNotValidate`) the claim promises. -/
theorem resolve_inactive_not_unauthenticated_counterexample :
    get_current_user accessDecodeSample parseUUIDSample lookupSuspendedStore
      "tok-suspended" = .error (.accountStatusForbidden "suspended") ∧
    AuthFail.accountStatusForbidden "suspended" ≠ AuthFail.couldNotValidate :=
  ⟨rfl, by decide⟩

/-- C9 (amended): the resolve step accepts exactly the tokens that
decode, carry type `access` and a parseable subject, and resolve to an
existing active user; every other token yields `none` on the
optional-auth path, while on the required-auth path a token that fails
decode, type, subject parsing or user lookup raises `Unauthenticated`,
and a token resolving to an existing user with non-active status is
rejected with the Forbidden error naming the status. -/
theorem resolve_access_control_characterization
    (decode : String → Option JwtPayload) (parseUUID : String → Option Nat)
    (lookupById : Nat → Option UserRec) (token : String) :
    (∀ u, get_current_user decode parseUUID lookupById token = .ok u ↔
      resolvesToActiveUser decode parseUUID lookupById token u) ∧
    (∀ u, get_optional_current_user decode parseUUID lookupById
        (some token) = some u ↔
      resolvesToActiveUser decode parseUUID lookupById token u) ∧
    (get_optional_current_user decode parseUUID lookupById none = none) ∧
    (∀ u, resolvesToUser decode parseUUID lookupById token u →
      u.status ≠ "active" →
      get_current_user decode parseUUID lookupById token =
        .error (.accountStatusForbidden u.status)) ∧
    ((∀ u, ¬ resolvesToUser decode parseUUID lookupById token u) →
      get_current_user decode parseUUID lookupById token =
        .error .couldNotValidate) := by
  refine ⟨?_, ?_, rfl, ?_, ?_⟩
  · intro u
    rcases hd : decode token with _ | payload
    · simp [get_current_user, resolvesToActiveUser, resolvesToUser, hd]
    · by_cases hty : payload.type = some "access"
      · rcases hs : payload.sub with _ | sid
        · simp [get_current_user, resolvesToActiveUser, resolvesToUser,
            hd, hty, hs]
        · rcases hp : parseUUID sid with _ | uid
          · simp [get_current_user, resolvesToActiveUser, resolvesToUser,
              hd, hty, hs, hp]
          · rcases hl : lookupById uid with _ | w
            · simp [get_current_user, resolvesToActiveUser, resolvesToUser,
                hd, hty, hs, hp, hl]
            · by_cases hst : w.status = "active"
              · rw [show get_current_user decode parseUUID lookupById token =
                    .ok w from by simp [get_current_user, hd, hty, hs, hp, hl, hst]]
                constructor
                · intro h
                  injection h with h
                  subst h
                  exact ⟨⟨payload, sid, uid, hd, hty, hs, hp, hl⟩, hst⟩
                · rintro ⟨⟨p, s, i, hpp, hpt, hss, hpi, hlu⟩, -⟩
                  rw [hd] at hpp
                  injection hpp with hpp
                  subst hpp
                  rw [hs] at hss
                  injection hss with hss
                  subst hss
                  rw [hp] at hpi
                  injection hpi with hpi
                  subst hpi
                  rw [hl] at hlu
                  injection hlu with hlu
                  subst hlu
                  rfl
              · rw [show get_current_user decode parseUUID lookupById token =
                    .error (.accountStatusForbidden w.status) from by
                      simp [get_current_user, hd, hty, hs, hp, hl, hst]]
                constructor
                · intro h
                  exact Except.noConfusion h
                · rintro ⟨⟨p, s, i, hpp, hpt, hss, hpi, hlu⟩, hact⟩
                  rw [hd] at hpp
                  injection hpp with hpp
                  subst hpp
                  rw [hs] at hss
                  injection hss with hss
                  subst hss
                  rw [hp] at hpi
                  injection hpi with hpi
                  subst hpi
                  rw [hl] at hlu
                  injection hlu with hlu
                  subst hlu
                  exact absurd hact hst
      · simp [get_current_user, resolvesToActiveUser, resolvesToUser, hd, hty]
  · intro u
    rcases hd : decode token with _ | payload
    · simp [get_optional_current_user, resolvesToActiveUser, resolvesToUser, hd]
    · by_cases hty : payload.type = some "access"
      · rcases hs : payload.sub with _ | sid
        · simp [get_optional_current_user, resolvesToActiveUser,
            resolvesToUser, hd, hty, hs]
        · rcases hp : parseUUID sid with _ | uid
          · simp [get_optional_current_user, resolvesToActiveUser,
              resolvesToUser, hd, hty, hs, hp]
          · rcases hl : lookupById uid with _ | w
            · simp [get_optional_current_user, resolvesToActiveUser,
                resolvesToUser, hd, hty, hs, hp, hl]
            · by_cases hst : w.status = "active"
              · rw [show get_optional_current_user decode parseUUID lookupById
                    (some token) = some w from by
                      simp [get_optional_current_user, hd, hty, hs, hp, hl, hst]]
                constructor
                · intro h
                  injection h with h
                  subst h
                  exact ⟨⟨payload, sid, uid, hd, hty, hs, hp, hl⟩, hst⟩
                · rintro ⟨⟨p, s, i, hpp, hpt, hss, hpi, hlu⟩, -⟩
                  rw [hd] at hpp
                  injection hpp with hpp
                  subst hpp
                  rw [hs] at hss
                  injection hss with hss
                  subst hss
                  rw [hp] at hpi
                  injection hpi with hpi
                  subst hpi
                  rw [hl] at hlu
                  injection hlu with hlu
                  subst hlu
                  rfl
              · rw [show get_optional_current_user decode parseUUID lookupById
                    (some token) = none from by
                      simp [get_optional_current_user, hd, hty, hs, hp, hl, hst]]
                constructor
                · intro h
                  exact Option.noConfusion h
                · rintro ⟨⟨p, s, i, hpp, hpt, hss, hpi, hlu⟩, hact⟩
                  rw [hd] at hpp
                  injection hpp with hpp
                  subst hpp
                  rw [hs] at hss
                  injection hss with hss
                  subst hss
                  rw [hp] at hpi
                  injection hpi with hpi
                  subst hpi
                  rw [hl] at hlu
                  injection hlu with hlu
                  subst hlu
                  exact absurd hact hst
      · simp [get_optional_current_user, resolvesToActiveUser,
          resolvesToUser, hd, hty]
  · rintro u ⟨p, s, i, hpp, hpt, hss, hpi, hlu⟩ hst
    simp [get_current_user, hpp, hpt, hss, hpi, hlu, hst]
  · intro hno
    rcases hd : decode token with _ | payload
    · simp [get_current_user, hd]
    · by_cases hty : payload.type = some "access"
      · rcases hs : payload.sub with _ | sid
        · simp [get_current_user, hd, hty, hs]
        · rcases hp : parseUUID sid with _ | uid
          · simp [get_current_user, hd, hty, hs, hp]
          · rcases hl : lookupById uid with _ | w
            · simp [get_current_user, hd, hty, hs, hp, hl]
            · exact absurd ⟨payload, sid, uid, hd, hty, hs, hp, hl⟩ (hno w)
      · simp [get_current_user, hd, hty]

/-- Witness for C9 (amended): the suspended user's token gets the
status-naming rejection; an undecodable token gets the 401. -/
theorem resolve_access_control_witness :
    get_current_user accessDecodeSample parseUUIDSample lookupSuspendedStore
      "tok-suspended" = .error (.accountStatusForbidden
        suspendedUser.status) ∧
    get_current_user accessDecodeSample parseUUIDSample lookupSuspendedStore
      "garbage" = .error .couldNotValidate := by
  refine ⟨(resolve_access_control_characterization accessDecodeSample
      parseUUIDSample lookupSuspendedStore "tok-suspended").2.2.2.1
      suspendedUser ⟨_, "1", 1, rfl, rfl, rfl, rfl, rfl⟩ (by decide),
    (resolve_access_control_characterization accessDecodeSample
      parseUUIDSample lookupSuspendedStore "garbage").2.2.2.2 ?_⟩
  rintro u ⟨p, s, i, hpp, -⟩
  rw [show accessDecodeSample "garbage" = none from rfl] at hpp
  exact Option.noConfusion hpp

end RentBackend
